import Mathlib

set_option maxRecDepth 4000

/-!
Shallow embedding of the asus-ec-sensors hwmon driver core
(src/asus-ec-sensors.c): the static sensor catalog, the per-board sensor
bitmasks, the register-plan construction (setup_sensor_data /
fill_ec_registers), the bank-switching bulk read pass over an explicit
hardware oracle (asus_ec_block_read), decoding and unit scaling
(get_sensor_value / scale_sensor_value), the one-second TTL cache
(get_cached_value_or_update) and the hwmon query entry points.
Machine integers are modelled as Nat; fallible operations return
Option / Except / Bool status values.
-/

/-- The hwmon sensor types the driver uses (from enum hwmon_sensor_types). -/
inductive HwmonType where
  | hwmon_chip
  | hwmon_temp
  | hwmon_in
  | hwmon_curr
  | hwmon_fan
deriving DecidableEq

/-- Components of union sensor_address: register offset within the bank,
bank number, and the sensor value's size in bytes. -/
structure SensorAddress where
  index : Nat
  bank : Nat
  size : Nat
deriving DecidableEq

/-- struct ec_sensor_info: one catalog entry. -/
structure EcSensorInfo where
  label : String
  type : HwmonType
  addr : SensorAddress
deriving DecidableEq

instance : Inhabited EcSensorInfo :=
  ⟨{ label := "", type := HwmonType.hwmon_chip, addr := ⟨0, 0, 0⟩ }⟩

/-- The EC_SENSOR(label, type, size, bank, index) table-entry constructor. -/
def EC_SENSOR (label : String) (type : HwmonType) (size bank index : Nat) :
    EcSensorInfo :=
  { label := label, type := type, addr := ⟨index, bank, size⟩ }

/-- known_ec_sensors: the static catalog of all known EC sensors, in the
order of the source array (index = bit position of the sensor's
enum known_ec_sensor identifier). -/
def known_ec_sensors : List EcSensorInfo := [
  EC_SENSOR ("Chipset") HwmonType.hwmon_temp 1 0x00 0x3a,
  EC_SENSOR ("CPU") HwmonType.hwmon_temp 1 0x00 0x3b,
  EC_SENSOR ("Motherboard") HwmonType.hwmon_temp 1 0x00 0x3c,
  EC_SENSOR ("T_Sensor") HwmonType.hwmon_temp 1 0x00 0x3d,
  EC_SENSOR ("VRM") HwmonType.hwmon_temp 1 0x00 0x3e,
  EC_SENSOR ("CPU_Opt") HwmonType.hwmon_fan 2 0x00 0xb0,
  EC_SENSOR ("VRM HS") HwmonType.hwmon_fan 2 0x00 0xb2,
  EC_SENSOR ("Chipset") HwmonType.hwmon_fan 2 0x00 0xb4,
  EC_SENSOR ("Water_Flow") HwmonType.hwmon_fan 2 0x00 0xbc,
  EC_SENSOR ("CPU") HwmonType.hwmon_curr 1 0x00 0xf4,
  EC_SENSOR ("Water_In") HwmonType.hwmon_temp 1 0x01 0x00,
  EC_SENSOR ("Water_Out") HwmonType.hwmon_temp 1 0x01 0x01]

/- enum known_ec_sensor: one bit per catalog sensor. -/

def SENSOR_TEMP_CHIPSET : Nat := 1 <<< 0
def SENSOR_TEMP_CPU : Nat := 1 <<< 1
def SENSOR_TEMP_MB : Nat := 1 <<< 2
def SENSOR_TEMP_T_SENSOR : Nat := 1 <<< 3
def SENSOR_TEMP_VRM : Nat := 1 <<< 4
def SENSOR_FAN_CPU_OPT : Nat := 1 <<< 5
def SENSOR_FAN_VRM_HS : Nat := 1 <<< 6
def SENSOR_FAN_CHIPSET : Nat := 1 <<< 7
def SENSOR_FAN_WATER_FLOW : Nat := 1 <<< 8
def SENSOR_CURR_CPU : Nat := 1 <<< 9
def SENSOR_TEMP_WATER_IN : Nat := 1 <<< 10
def SENSOR_TEMP_WATER_OUT : Nat := 1 <<< 11

/-- ASUS_EC_MAX_BANK: capacity of the banks array. -/
def ASUS_EC_MAX_BANK : Nat := 0x04

def ASUS_HW_ACCESS_MUTEX_ASMX : String := "\\AMW0.ASMX"

/-- struct asus_ec_board_info: sensor bitmask plus hardware-guard path. -/
structure AsusEcBoardInfo where
  sensors : Nat
  acpi_mutex_path : String
deriving DecidableEq

/-- known_boards: the nine supported boards, in source order
(BOARD_PW_X570_A .. BOARD_RS_X570_I_G). -/
def known_boards : List AsusEcBoardInfo := [
  { sensors := SENSOR_TEMP_CHIPSET ||| SENSOR_TEMP_CPU ||| SENSOR_TEMP_MB |||
      SENSOR_TEMP_VRM ||| SENSOR_FAN_CHIPSET ||| SENSOR_CURR_CPU,
    acpi_mutex_path := ASUS_HW_ACCESS_MUTEX_ASMX },
  { sensors := SENSOR_TEMP_CHIPSET ||| SENSOR_TEMP_CPU ||| SENSOR_TEMP_MB |||
      SENSOR_TEMP_T_SENSOR ||| SENSOR_TEMP_VRM ||| SENSOR_TEMP_WATER_IN |||
      SENSOR_TEMP_WATER_OUT ||| SENSOR_FAN_CPU_OPT ||| SENSOR_FAN_CHIPSET |||
      SENSOR_FAN_WATER_FLOW ||| SENSOR_CURR_CPU,
    acpi_mutex_path := ASUS_HW_ACCESS_MUTEX_ASMX },
  { sensors := SENSOR_TEMP_CHIPSET ||| SENSOR_TEMP_CPU ||| SENSOR_TEMP_MB |||
      SENSOR_TEMP_T_SENSOR ||| SENSOR_TEMP_VRM ||| SENSOR_TEMP_WATER_IN |||
      SENSOR_TEMP_WATER_OUT ||| SENSOR_FAN_CPU_OPT ||| SENSOR_FAN_WATER_FLOW |||
      SENSOR_CURR_CPU,
    acpi_mutex_path := ASUS_HW_ACCESS_MUTEX_ASMX },
  { sensors := SENSOR_TEMP_CHIPSET ||| SENSOR_TEMP_CPU ||| SENSOR_TEMP_MB |||
      SENSOR_TEMP_T_SENSOR ||| SENSOR_TEMP_VRM ||| SENSOR_FAN_CPU_OPT |||
      SENSOR_FAN_CHIPSET ||| SENSOR_CURR_CPU,
    acpi_mutex_path := ASUS_HW_ACCESS_MUTEX_ASMX },
  { sensors := SENSOR_TEMP_CHIPSET ||| SENSOR_TEMP_CPU ||| SENSOR_TEMP_MB |||
      SENSOR_TEMP_T_SENSOR ||| SENSOR_TEMP_VRM ||| SENSOR_FAN_CHIPSET |||
      SENSOR_CURR_CPU,
    acpi_mutex_path := ASUS_HW_ACCESS_MUTEX_ASMX },
  { sensors := SENSOR_TEMP_CHIPSET ||| SENSOR_TEMP_CPU ||| SENSOR_TEMP_MB |||
      SENSOR_TEMP_T_SENSOR ||| SENSOR_TEMP_VRM ||| SENSOR_FAN_CPU_OPT |||
      SENSOR_CURR_CPU,
    acpi_mutex_path := ASUS_HW_ACCESS_MUTEX_ASMX },
  { sensors := SENSOR_TEMP_CHIPSET ||| SENSOR_TEMP_CPU ||| SENSOR_TEMP_MB |||
      SENSOR_TEMP_T_SENSOR ||| SENSOR_TEMP_VRM ||| SENSOR_FAN_VRM_HS |||
      SENSOR_CURR_CPU,
    acpi_mutex_path := ASUS_HW_ACCESS_MUTEX_ASMX },
  { sensors := SENSOR_TEMP_CHIPSET ||| SENSOR_TEMP_CPU ||| SENSOR_TEMP_MB |||
      SENSOR_TEMP_T_SENSOR ||| SENSOR_TEMP_VRM ||| SENSOR_FAN_CHIPSET |||
      SENSOR_CURR_CPU,
    acpi_mutex_path := ASUS_HW_ACCESS_MUTEX_ASMX },
  { sensors := SENSOR_TEMP_T_SENSOR ||| SENSOR_FAN_VRM_HS |||
      SENSOR_FAN_CHIPSET ||| SENSOR_CURR_CPU,
    acpi_mutex_path := ASUS_HW_ACCESS_MUTEX_ASMX }]

/-- struct ec_sensor: catalog index plus the cached (raw, as stored by
update_sensor_values) value. -/
structure EcSensor where
  info_index : Nat
  cached_value : Nat
deriving DecidableEq

instance : Inhabited EcSensor := ⟨{ info_index := 0, cached_value := 0 }⟩

/-- register_bank(reg): high byte of an absolute register address. -/
def register_bank (reg : Nat) : Nat := (reg &&& 0xff00) >>> 8

/-- The loop `for (i = 1; i < SENSOR_END; i <<= 1)` of setup_sensor_data:
SENSOR_END = (1 <<< 11) + 1, so the loop visits bit positions 0..11
(the 12 catalog sensors) in ascending order, keeping those set in the
board's bitmask; __builtin_ctz recovers the bit position as info_index,
and cached_value starts at 0. -/
def setup_sensor_list (board_sensors : Nat) : List EcSensor :=
  ((List.range known_ec_sensors.length).filter
      (fun b => board_sensors.testBit b)).map
    (fun b => { info_index := b, cached_value := 0 })

/-- nr_registers as accumulated by setup_sensor_data: the sum of the
assigned sensors' sizes. -/
def setup_nr_registers (board_sensors : Nat) : Nat :=
  ((setup_sensor_list board_sensors).map
    (fun s => (known_ec_sensors.getD s.info_index default).addr.size)).sum

/-- The bank-collection part of setup_sensor_data: append each assigned
sensor's bank the first time it is seen. -/
def collect_banks (sensors : List EcSensor) : List Nat :=
  sensors.foldl
    (fun acc s =>
      let b := (known_ec_sensors.getD s.info_index default).addr.bank
      if b ∈ acc then acc else acc ++ [b])
    []

/-- Ascending insertion used to model the kernel sort with bank_compare
(numeric ascending order on the bank bytes). -/
def insertAsc (x : Nat) : List Nat → List Nat
  | [] => [x]
  | y :: ys => if x ≤ y then x :: y :: ys else y :: insertAsc x ys

/-- sort(ec->banks, ec->nr_banks, 1, bank_compare, NULL): ascending sort. -/
def sortBanks (l : List Nat) : List Nat := l.foldr insertAsc []

/-- The banks field produced by setup_sensor_data. -/
def setup_banks (board_sensors : Nat) : List Nat :=
  sortBanks (collect_banks (setup_sensor_list board_sensors))

/-- fill_ec_registers: for each assigned sensor in order, append `size`
consecutive absolute addresses `(bank <<< 8) + index + j`. -/
def fill_ec_registers (sensors : List EcSensor) : List Nat :=
  sensors.flatMap (fun s =>
    let si := known_ec_sensors.getD s.info_index default
    (List.range si.addr.size).map
      (fun j => (si.addr.bank <<< 8) + si.addr.index + j))

/-- struct ec_sensors_data: the per-instance driver state. nr_sensors,
nr_registers and nr_banks are the lengths of the respective lists. -/
structure EcSensorsData where
  sensors : List EcSensor
  registers : List Nat
  read_buffer : List Nat
  banks : List Nat
  last_updated : Nat
deriving DecidableEq

/-- configure_sensor_setup's construction of the driver state for one
board bitmask: setup_sensor_data followed by fill_ec_registers, with a
zeroed read buffer of nr_registers bytes and last_updated = 0. -/
def make_ec_state (board_sensors : Nat) : EcSensorsData :=
  let sensors := setup_sensor_list board_sensors
  { sensors := sensors
    registers := fill_ec_registers sensors
    read_buffer := List.replicate (setup_nr_registers board_sensors) 0
    banks := setup_banks board_sensors
    last_updated := 0 }

/-! ## Hardware oracle and the bulk read pass -/

/-- The hardware-access collaborator's behaviour, fixed for a run: the
current register contents per (bank, offset), and success schedules for
the fallible primitives. selReadOk governs the single bank-selector read
at the start of a pass; writeOk is consulted per selector write (indexed
by a running write counter); regReadOk per data-register read. mutexOk
models acpi_acquire_mutex. -/
structure HwOracle where
  mem : Nat → Nat → Nat
  selReadOk : Bool
  mutexOk : Bool
  writeOk : Nat → Bool
  regReadOk : Nat → Bool

/-- The mutable hardware-side state visible to the driver, together with
instrumentation counters and traces (the call-count observations the
specification's testable properties refer to): bank is the current value
of the bank-selector register; wcount/rcount count selector writes and
data-register reads; passCount counts bulk-read passes; wtrace records
the target of every selector write; rtrace records, for every
data-register read, the bank selected at read time and the offset read. -/
structure Hw where
  o : HwOracle
  bank : Nat
  wcount : Nat
  rcount : Nat
  passCount : Nat
  wtrace : List Nat
  rtrace : List (Nat × Nat)

/-- ec_write(ASUS_EC_BANK_REGISTER, bank): one selector write; on failure
the selector keeps its value. Returns the success flag and the new
hardware state. -/
def ecWriteSel (b : Nat) (hw : Hw) : Bool × Hw :=
  let ok := hw.o.writeOk hw.wcount
  (ok, { hw with
          wcount := hw.wcount + 1
          wtrace := hw.wtrace ++ [b]
          bank := if ok then b else hw.bank })

/-- ec_read of a data register at `off` within the currently selected
bank. The value read comes from the selected bank's page. -/
def ecReadReg (off : Nat) (hw : Hw) : Option Nat × Hw :=
  let ok := hw.o.regReadOk hw.rcount
  ((if ok then some (hw.o.mem hw.bank off) else none),
   { hw with
      rcount := hw.rcount + 1
      rtrace := hw.rtrace ++ [(hw.bank, off)] })

/-- asus_ec_bank_switch(bank, NULL): unconditionally write the selector. -/
def asus_ec_bank_switch (bank : Nat) (hw : Hw) : Bool × Hw :=
  ecWriteSel bank hw

/-- asus_ec_bank_switch(bank, &old): read the selector into old; a read
failure fails the switch; if old already equals the requested bank no
write is issued, otherwise the selector is written. Returns
(status ok?, old, hardware state). -/
def asus_ec_bank_switch_save (bank : Nat) (hw : Hw) : Bool × Nat × Hw :=
  if hw.o.selReadOk then
    if hw.bank = bank then (true, hw.bank, hw)
    else
      let w := ecWriteSel bank hw
      (w.1, hw.bank, w.2)
  else (false, 0, hw)

/-- The inner register loop of asus_ec_block_read for one selected bank:
scan the whole plan register list; skip registers whose bank is below the
current one; read the others at their low-byte offset into their own
buffer slot. The read's status is ignored by the source, so a failed read
leaves the slot's previous content. -/
def block_read_regs : List Nat → Nat → Nat → List Nat → Hw → List Nat × Hw
  | [], _, _, buf, hw => (buf, hw)
  | r :: rest, bank, ireg, buf, hw =>
    if register_bank r < bank then
      block_read_regs rest bank (ireg + 1) buf hw
    else
      let rd := ecReadReg (r &&& 0x00ff) hw
      block_read_regs rest bank (ireg + 1)
        (match rd.1 with
          | some v => buf.set ireg v
          | none => buf)
        rd.2

/-- The outer bank loop of asus_ec_block_read: for each plan bank in
order, switch to it when not already selected (a switch failure is only
warned about and breaks the loop — it is not recorded in the returned
status), then run the inner register scan. -/
def block_read_banks (regs : List Nat) :
    List Nat → Nat → List Nat → Hw → List Nat × Hw
  | [], _, buf, hw => (buf, hw)
  | b :: rest, cur, buf, hw =>
    if cur ≠ b then
      let sw := asus_ec_bank_switch b hw
      if sw.1 then
        let inr := block_read_regs regs b 0 buf sw.2
        block_read_banks regs rest b inr.1 inr.2
      else (buf, sw.2)
    else
      let inr := block_read_regs regs b 0 buf hw
      block_read_banks regs rest b inr.1 inr.2

/-- asus_ec_block_read: one bulk read pass. Switch to bank 0 saving the
previous bank (failure aborts the pass with that status and the buffer
untouched), run the bank loop, then always switch back to the saved bank;
the status of that final restore switch is the pass's returned status.
passCount is bumped at entry (pass call-count instrumentation). -/
def asus_ec_block_read (regs banks : List Nat) (buf : List Nat) (hw0 : Hw) :
    Bool × List Nat × Hw :=
  let hw := { hw0 with passCount := hw0.passCount + 1 }
  let sw := asus_ec_bank_switch_save 0 hw
  if sw.1 then
    let lr := block_read_banks regs banks 0 buf sw.2.2
    let fin := asus_ec_bank_switch sw.2.1 lr.2
    (fin.1, lr.1, fin.2)
  else (false, buf, sw.2.2)

/-! ## Decoding, scaling and the cache -/

/-- get_sensor_value: decode one sensor's raw bytes; 1 byte as-is, 2 and
4 bytes big-endian, any other size 0. -/
def get_sensor_value (si : EcSensorInfo) (data : List Nat) : Nat :=
  match si.addr.size with
  | 1 => data.getD 0 0
  | 2 => 256 * data.getD 0 0 + data.getD 1 0
  | 4 => 256 * (256 * (256 * data.getD 0 0 + data.getD 1 0) +
      data.getD 2 0) + data.getD 3 0
  | _ => 0

/-- update_sensor_values: walk the assigned sensors in order, store each
sensor's decoded (raw, unscaled) value and advance the data pointer by the
sensor's size. -/
def update_sensor_values : List EcSensor → List Nat → List EcSensor
  | [], _ => []
  | s :: rest, data =>
    let si := known_ec_sensors.getD s.info_index default
    { s with cached_value := get_sensor_value si data } ::
      update_sensor_values rest (data.drop si.addr.size)

/-- update_ec_sensors: acquire the AML mutex (failure returns -EBUSY with
nothing touched), run one bulk read pass, and only on a success status
overwrite the cached sensor values from the read buffer. The buffer
itself is the pass's output either way; last_updated is not touched here.
The Bool result is the success status. -/
def update_ec_sensors (ec : EcSensorsData) (hw : Hw) :
    Bool × EcSensorsData × Hw :=
  if hw.o.mutexOk then
    let r := asus_ec_block_read ec.registers ec.banks ec.read_buffer hw
    (r.1,
     { ec with
        read_buffer := r.2.1
        sensors := if r.1 then update_sensor_values ec.sensors r.2.1
          else ec.sensors },
     r.2.2)
  else (false, ec, hw)

/-- scale_sensor_value: currents, temperatures and voltages are scaled to
milli-units with u32 arithmetic (the product wraps modulo 2^32); fan
values pass through unscaled. -/
def scale_sensor_value (value : Nat) (data_type : HwmonType) : Nat :=
  match data_type with
  | HwmonType.hwmon_curr | HwmonType.hwmon_temp | HwmonType.hwmon_in =>
    (value * 1000) % 2 ^ 32
  | _ => value

/-- HZ: jiffies per second; last_updated + HZ is one second after the
last refresh, the fixed cache TTL. -/
def HZ : Nat := 1000

/-- get_cached_value_or_update: when time_after(now, last_updated + HZ)
(strictly later than one TTL past the last refresh) run update_ec_sensors;
a failure returns the error (modelled none) with last_updated untouched;
on success set last_updated := now. Finally serve the requested sensor's
cached value. -/
def get_cached_value_or_update (sensor_index : Nat) (ec : EcSensorsData)
    (hw : Hw) (now : Nat) : Option Nat × EcSensorsData × Hw :=
  if ec.last_updated + HZ < now then
    let u := update_ec_sensors ec hw
    if u.1 then
      let ec2 := { u.2.1 with last_updated := now }
      (some ((ec2.sensors.getD sensor_index default).cached_value), ec2, u.2.2)
    else (none, u.2.1, u.2.2)
  else
    (some ((ec.sensors.getD sensor_index default).cached_value), ec, hw)

/-! ## Sensor lookup and the hwmon entry points -/

/-- get_sensor_info(state, index): catalog entry of the index-th assigned
sensor. -/
def get_sensor_info (ec : EcSensorsData) (index : Nat) : EcSensorInfo :=
  known_ec_sensors.getD ((ec.sensors.getD index default).info_index) default

/-- The loop of find_ec_sensor_index, carrying the absolute position i:
count down channel over sensors whose catalog type matches, return the
absolute index on hit and -ENOENT (-2) when the list is exhausted. -/
def find_from : List EcSensor → HwmonType → Nat → Nat → Int
  | [], _, _, _ => -2
  | s :: rest, t, channel, i =>
    if (known_ec_sensors.getD s.info_index default).type = t then
      if channel = 0 then Int.ofNat i
      else find_from rest t (channel - 1) (i + 1)
    else find_from rest t channel (i + 1)

/-- find_ec_sensor_index: index of the (channel+1)-th assigned sensor of
the given type, or -ENOENT. -/
def find_ec_sensor_index (sensors : List EcSensor) (t : HwmonType)
    (channel : Nat) : Int :=
  find_from sensors t channel 0

/-- Specification helper: the list of positions (in assignment order) of
the sensors of a given catalog type. -/
def occIndices : List EcSensor → HwmonType → List Nat
  | [], _ => []
  | s :: rest, t =>
    if (known_ec_sensors.getD s.info_index default).type = t then
      0 :: (occIndices rest t).map (· + 1)
    else (occIndices rest t).map (· + 1)

/-- asus_ec_hwmon_read: look the sensor up (a negative index is returned
to the caller unchanged as the error), fetch the cached-or-refreshed raw
value, and scale it by the sensor's catalog type. -EIO (-5) reports a
failed refresh. -/
def asus_ec_hwmon_read (t : HwmonType) (channel : Nat) (ec : EcSensorsData)
    (hw : Hw) (now : Nat) : Except Int Nat × EcSensorsData × Hw :=
  let sidx := find_ec_sensor_index ec.sensors t channel
  if sidx < 0 then (Except.error sidx, ec, hw)
  else
    let r := get_cached_value_or_update sidx.toNat ec hw now
    match r.1 with
    | some v =>
      (Except.ok (scale_sensor_value v (get_sensor_info r.2.1 sidx.toNat).type),
       r.2.1, r.2.2)
    | none => (Except.error (-5), r.2.1, r.2.2)

/-- asus_ec_hwmon_is_visible: a channel is readable exactly when the
lookup succeeds. -/
def asus_ec_hwmon_is_visible (ec : EcSensorsData) (t : HwmonType)
    (channel : Nat) : Bool :=
  decide (0 ≤ find_ec_sensor_index ec.sensors t channel)

/-- asus_ec_hwmon_read_string dereferences
get_sensor_info(state, find_ec_sensor_index(state, type, channel))
without checking the lookup result; this is the index at which it
accesses the sensors table. -/
def asus_ec_hwmon_read_string_index (ec : EcSensorsData) (t : HwmonType)
    (channel : Nat) : Int :=
  find_ec_sensor_index ec.sensors t channel

/-! ## Frame lemmas for the hardware model -/

lemma ecWriteSel_snd (b : Nat) (hw : Hw) :
    (ecWriteSel b hw).2.o = hw.o ∧ (ecWriteSel b hw).2.rcount = hw.rcount ∧
    (ecWriteSel b hw).2.passCount = hw.passCount ∧
    (ecWriteSel b hw).2.rtrace = hw.rtrace ∧
    (ecWriteSel b hw).2.wcount = hw.wcount + 1 ∧
    (ecWriteSel b hw).2.wtrace = hw.wtrace ++ [b] :=
  ⟨rfl, rfl, rfl, rfl, rfl, rfl⟩

lemma ecWriteSel_fst (b : Nat) (hw : Hw) :
    (ecWriteSel b hw).1 = hw.o.writeOk hw.wcount :=
  rfl

lemma ecReadReg_snd (off : Nat) (hw : Hw) :
    (ecReadReg off hw).2.o = hw.o ∧ (ecReadReg off hw).2.bank = hw.bank ∧
    (ecReadReg off hw).2.wcount = hw.wcount ∧
    (ecReadReg off hw).2.wtrace = hw.wtrace ∧
    (ecReadReg off hw).2.passCount = hw.passCount ∧
    (ecReadReg off hw).2.rcount = hw.rcount + 1 ∧
    (ecReadReg off hw).2.rtrace = hw.rtrace ++ [(hw.bank, off)] :=
  ⟨rfl, rfl, rfl, rfl, rfl, rfl, rfl⟩

lemma block_read_regs_frame (regs : List Nat) (bank ireg : Nat)
    (buf : List Nat) (hw : Hw) :
    (block_read_regs regs bank ireg buf hw).2.o = hw.o ∧
    (block_read_regs regs bank ireg buf hw).2.bank = hw.bank ∧
    (block_read_regs regs bank ireg buf hw).2.wcount = hw.wcount ∧
    (block_read_regs regs bank ireg buf hw).2.wtrace = hw.wtrace ∧
    (block_read_regs regs bank ireg buf hw).2.passCount = hw.passCount := by
  induction regs generalizing ireg buf hw with
  | nil => exact ⟨rfl, rfl, rfl, rfl, rfl⟩
  | cons r rest ih =>
    simp only [block_read_regs]
    split
    · exact ih _ _ _
    · exact ih _ _ _

lemma block_read_banks_frame (regs banks : List Nat) (cur : Nat)
    (buf : List Nat) (hw : Hw) :
    (block_read_banks regs banks cur buf hw).2.o = hw.o ∧
    (block_read_banks regs banks cur buf hw).2.passCount = hw.passCount ∧
    ∃ mid, (block_read_banks regs banks cur buf hw).2.wtrace
      = hw.wtrace ++ mid := by
  induction banks generalizing cur buf hw with
  | nil => exact ⟨rfl, rfl, [], by simp [block_read_banks]⟩
  | cons b rest ih =>
    simp only [block_read_banks]
    split
    · split
      · obtain ⟨ho1, _, _, ht1, hp1⟩ :=
          block_read_regs_frame regs b 0 buf (asus_ec_bank_switch b hw).2
        obtain ⟨ho2, hp2, mid, ht2⟩ := ih b _ _
        refine ⟨ho2.trans ho1, hp2.trans hp1, [b] ++ mid, ?_⟩
        rw [ht2, ht1]
        show (hw.wtrace ++ [b]) ++ mid = hw.wtrace ++ ([b] ++ mid)
        simp
      · exact ⟨rfl, rfl, [b], rfl⟩
    · obtain ⟨ho1, _, _, ht1, hp1⟩ := block_read_regs_frame regs b 0 buf hw
      obtain ⟨ho2, hp2, mid, ht2⟩ := ih b _ _
      refine ⟨ho2.trans ho1, hp2.trans hp1, mid, ?_⟩
      rw [ht2, ht1]

lemma asus_ec_bank_switch_save_snd (bank : Nat) (hw : Hw) :
    (asus_ec_bank_switch_save bank hw).2.2.o = hw.o ∧
    (asus_ec_bank_switch_save bank hw).2.2.passCount = hw.passCount ∧
    (asus_ec_bank_switch_save bank hw).2.2.rcount = hw.rcount ∧
    (asus_ec_bank_switch_save bank hw).2.2.rtrace = hw.rtrace := by
  unfold asus_ec_bank_switch_save
  split
  · split
    · exact ⟨rfl, rfl, rfl, rfl⟩
    · exact ⟨rfl, rfl, rfl, rfl⟩
  · exact ⟨rfl, rfl, rfl, rfl⟩

lemma asus_ec_bank_switch_save_wtrace (bank : Nat) (hw : Hw) :
    ∃ mid, (asus_ec_bank_switch_save bank hw).2.2.wtrace
      = hw.wtrace ++ mid := by
  unfold asus_ec_bank_switch_save
  split
  · split
    · exact ⟨[], by simp⟩
    · exact ⟨[bank], rfl⟩
  · exact ⟨[], by simp⟩

lemma asus_ec_bank_switch_save_prev (bank : Nat) (hw : Hw)
    (hs : hw.o.selReadOk = true) :
    (asus_ec_bank_switch_save bank hw).2.1 = hw.bank := by
  unfold asus_ec_bank_switch_save
  rw [if_pos hs]
  split
  · rfl
  · rfl

lemma asus_ec_block_read_passCount (regs banks buf : List Nat) (hw : Hw) :
    (asus_ec_block_read regs banks buf hw).2.2.passCount
      = hw.passCount + 1 := by
  simp only [asus_ec_block_read]
  split
  · have h1 := (block_read_banks_frame regs banks 0 buf
      (asus_ec_bank_switch_save 0
        { hw with passCount := hw.passCount + 1 }).2.2).2.1
    have h2 := (asus_ec_bank_switch_save_snd 0
      { hw with passCount := hw.passCount + 1 }).2.1
    exact h1.trans h2
  · exact (asus_ec_bank_switch_save_snd 0
      { hw with passCount := hw.passCount + 1 }).2.1

lemma update_ec_sensors_last_updated (ec : EcSensorsData) (hw : Hw) :
    (update_ec_sensors ec hw).2.1.last_updated = ec.last_updated := by
  unfold update_ec_sensors
  split
  · rfl
  · rfl

lemma update_ec_sensors_sensors_of_error (ec : EcSensorsData) (hw : Hw)
    (h : (update_ec_sensors ec hw).1 = false) :
    (update_ec_sensors ec hw).2.1.sensors = ec.sensors := by
  by_cases hm : hw.o.mutexOk = true
  · simp only [update_ec_sensors, hm, if_true] at h ⊢
    simp [h]
  · simp only [update_ec_sensors, if_neg hm]

lemma update_ec_sensors_passCount (ec : EcSensorsData) (hw : Hw)
    (hm : hw.o.mutexOk = true) :
    (update_ec_sensors ec hw).2.2.passCount = hw.passCount + 1 := by
  simp only [update_ec_sensors, hm, if_true]
  exact asus_ec_block_read_passCount _ _ _ _

lemma get_cached_fresh (sensor_index : Nat) (ec : EcSensorsData) (hw : Hw)
    (now : Nat) (h : now ≤ ec.last_updated + HZ) :
    get_cached_value_or_update sensor_index ec hw now
      = (some ((ec.sensors.getD sensor_index default).cached_value), ec, hw) := by
  unfold get_cached_value_or_update
  rw [if_neg (by omega)]

lemma get_cached_passCount (sensor_index : Nat) (ec : EcSensorsData) (hw : Hw)
    (now : Nat) (h : ec.last_updated + HZ < now) (hm : hw.o.mutexOk = true) :
    (get_cached_value_or_update sensor_index ec hw now).2.2.passCount
      = hw.passCount + 1 := by
  simp only [get_cached_value_or_update, if_pos h]
  split
  · exact update_ec_sensors_passCount ec hw hm
  · exact update_ec_sensors_passCount ec hw hm

lemma asus_ec_block_read_restore (regs banks buf : List Nat) (hw : Hw)
    (hs : hw.o.selReadOk = true)
    (h0 : hw.bank = 0 ∨ hw.o.writeOk hw.wcount = true) :
    (asus_ec_block_read regs banks buf hw).1
      = hw.o.writeOk ((asus_ec_block_read regs banks buf hw).2.2.wcount - 1)
    ∧ ∃ mid, (asus_ec_block_read regs banks buf hw).2.2.wtrace
        = hw.wtrace ++ mid ++ [hw.bank] := by
  have hswt : (asus_ec_bank_switch_save 0
      { hw with passCount := hw.passCount + 1 }).1 = true := by
    unfold asus_ec_bank_switch_save
    rw [if_pos hs]
    rcases h0 with h0 | h0
    · rw [if_pos h0]
    · split
      · rfl
      · exact h0
  simp only [asus_ec_block_read, asus_ec_bank_switch, hswt, if_true]
  have hoeq : (block_read_banks regs banks 0 buf
      (asus_ec_bank_switch_save 0
        { hw with passCount := hw.passCount + 1 }).2.2).2.o = hw.o :=
    (block_read_banks_frame regs banks 0 buf _).1.trans
      (asus_ec_bank_switch_save_snd 0 _).1
  constructor
  · rw [ecWriteSel_fst, (ecWriteSel_snd _ _).2.2.2.2.1, Nat.add_sub_cancel,
      hoeq]
  · obtain ⟨mid1, ht1⟩ := (block_read_banks_frame regs banks 0 buf
      (asus_ec_bank_switch_save 0
        { hw with passCount := hw.passCount + 1 }).2.2).2.2
    obtain ⟨mid0, ht0⟩ := asus_ec_bank_switch_save_wtrace 0
      { hw with passCount := hw.passCount + 1 }
    refine ⟨mid0 ++ mid1, ?_⟩
    rw [(ecWriteSel_snd _ _).2.2.2.2.2, ht1, ht0,
      asus_ec_bank_switch_save_prev 0 { hw with passCount := hw.passCount + 1 }
        hs]
    show (hw.wtrace ++ mid0) ++ mid1 ++ [hw.bank]
      = hw.wtrace ++ (mid0 ++ mid1) ++ [hw.bank]
    simp

instance : Inhabited AsusEcBoardInfo :=
  ⟨{ sensors := 0, acpi_mutex_path := "" }⟩

/-- Sensor bitmask of the Pro WS X570-ACE board (first table entry). -/
def maskPWX570A : Nat := (known_boards.getD 0 default).sensors

/-- Driver state for the Pro WS X570-ACE (single-bank plan, 7 registers). -/
def stPW : EcSensorsData := make_ec_state maskPWX570A

/-- Sensor bitmask of the ROG Crosshair VIII Hero board. -/
def maskC8H : Nat := (known_boards.getD 1 default).sensors

/-- Driver state for the C8H: a two-bank plan (banks 0 and 1,
14 registers). -/
def stC8H : EcSensorsData := make_ec_state maskC8H

/-- A hardware behaviour where every operation succeeds, the selector
starts on bank 0 and register (b, off) holds b + off + 7. -/
def hwAllOk : Hw :=
  { o := { mem := fun b off => b + off + 7, selReadOk := true,
           mutexOk := true, writeOk := fun _ => true,
           regReadOk := fun _ => true },
    bank := 0, wcount := 0, rcount := 0, passCount := 0,
    wtrace := [], rtrace := [] }

/-- A hardware behaviour whose first selector write fails and whose later
ones succeed. With the C8H two-bank plan and the selector initially on
bank 0 the failing write is exactly the mid-pass switch to bank 1, and
the succeeding second write is the final restore switch. -/
def hwMidFail : Hw :=
  { o := { mem := fun b off => b + off + 7, selReadOk := true,
           mutexOk := true, writeOk := fun n => decide (n ≠ 0),
           regReadOk := fun _ => true },
    bank := 0, wcount := 0, rcount := 0, passCount := 0,
    wtrace := [], rtrace := [] }

/-- A hardware behaviour whose pre-pass selector read fails. -/
def hwSelFail : Hw :=
  { hwAllOk with o := { hwAllOk.o with selReadOk := false } }

/-! ## Claim theorems -/

/-- C1 (amended). A failure of the initial bank-0 switch — the pre-pass
selector read, or the write selecting bank 0 — aborts the pass with an
error status, and whenever update_ec_sensors reports an error no cache
mutation is committed: the sensors' cached values and last_updated are
unchanged. (The claim's further assertion that a mid-pass bank switch
failure or a data-register read failure also aborts the pass with an
error is refuted by pass_midswitch_cex: the loop merely stops, the
returned status is the restore switch's, and register read statuses are
ignored.) -/
theorem pass_failure_no_commit (ec : EcSensorsData) (hw : Hw) :
    ((update_ec_sensors ec hw).1 = false →
      (update_ec_sensors ec hw).2.1.sensors = ec.sensors ∧
      (update_ec_sensors ec hw).2.1.last_updated = ec.last_updated)
    ∧ (hw.o.mutexOk = true → hw.o.selReadOk = false →
        (update_ec_sensors ec hw).1 = false)
    ∧ (hw.o.mutexOk = true → hw.o.selReadOk = true → hw.bank ≠ 0 →
        hw.o.writeOk hw.wcount = false →
        (update_ec_sensors ec hw).1 = false) := by
  refine ⟨fun h => ⟨update_ec_sensors_sensors_of_error ec hw h,
    update_ec_sensors_last_updated ec hw⟩, ?_, ?_⟩
  · intro hm hsel
    simp only [update_ec_sensors, hm, if_true, asus_ec_block_read,
      asus_ec_bank_switch_save, hsel]
    simp
  · intro hm hsel hb hwr
    simp only [update_ec_sensors, hm, if_true, asus_ec_block_read,
      asus_ec_bank_switch_save, hsel, if_true, if_neg hb, ecWriteSel_fst]
    simp [hwr]

/-- Witness for C1: with the selector read failing (and the mutex
available), the Pro WS X570-ACE pass fails and commits nothing. -/
theorem pass_failure_no_commit_witness :
    (update_ec_sensors stPW hwSelFail).1 = false
    ∧ (update_ec_sensors stPW hwSelFail).2.1.sensors = stPW.sensors := by
  have h := pass_failure_no_commit stPW hwSelFail
  exact ⟨h.2.1 rfl rfl, (h.1 (h.2.1 rfl rfl)).1⟩

/-- C1 counterexample: on the C8H two-bank plan, when the mid-pass switch
to bank 1 fails but the final restore switch succeeds, the pass reports
success and the cache IS mutated — refuting the claim that a mid-pass
bank switch failure aborts the pass with an error and no cache commit. -/
theorem pass_midswitch_cex :
    (update_ec_sensors stC8H hwMidFail).1 = true
    ∧ (update_ec_sensors stC8H hwMidFail).2.1.sensors ≠ stC8H.sensors := by
  exact ⟨rfl, by decide⟩

/-- C2. A query issued no later than one TTL (HZ jiffies = 1 s) past the
last refresh triggers no bulk read pass at all (driver state and hardware
are untouched) and returns the cached value; a query issued strictly
after the TTL, with the hardware guard available, triggers exactly one
bulk read pass. -/
theorem cache_ttl_gate (sensor_index : Nat) (ec : EcSensorsData) (hw : Hw)
    (now : Nat) :
    (now ≤ ec.last_updated + HZ →
      get_cached_value_or_update sensor_index ec hw now
        = (some ((ec.sensors.getD sensor_index default).cached_value), ec, hw))
    ∧ (ec.last_updated + HZ < now → hw.o.mutexOk = true →
        (get_cached_value_or_update sensor_index ec hw now).2.2.passCount
          = hw.passCount + 1) :=
  ⟨fun h => get_cached_fresh sensor_index ec hw now h,
   fun h hm => get_cached_passCount sensor_index ec hw now h hm⟩

/-- Witness for C2 at the Pro WS X570-ACE state: a query at time 500
(within TTL of refresh time 0) is served from the cache with no pass; a
query at time 2000 runs exactly one pass. -/
theorem cache_ttl_gate_witness :
    get_cached_value_or_update 0 stPW hwAllOk 500
      = (some ((stPW.sensors.getD 0 default).cached_value), stPW, hwAllOk)
    ∧ (get_cached_value_or_update 0 stPW hwAllOk 2000).2.2.passCount
      = hwAllOk.passCount + 1 :=
  ⟨(cache_ttl_gate 0 stPW hwAllOk 500).1 (by decide),
   (cache_ttl_gate 0 stPW hwAllOk 2000).2 (by decide) rfl⟩

/-- C5. Once a pass gets past the initial bank-0 switch, a final restore
switch targeting the pre-pass bank is always attempted (it is the pass's
last selector write), the pass's overall status is exactly that restore
write's outcome — so a pass that read every bank but fails the restore
reports failure — and a failed pass never updates the cached sensor
values. -/
theorem restore_prev_bank (ec : EcSensorsData) (hw : Hw)
    (hm : hw.o.mutexOk = true) (hs : hw.o.selReadOk = true)
    (h0 : hw.bank = 0 ∨ hw.o.writeOk hw.wcount = true) :
    (∃ mid, (update_ec_sensors ec hw).2.2.wtrace
      = hw.wtrace ++ mid ++ [hw.bank])
    ∧ (update_ec_sensors ec hw).1
      = hw.o.writeOk ((update_ec_sensors ec hw).2.2.wcount - 1)
    ∧ ((update_ec_sensors ec hw).1 = false →
        (update_ec_sensors ec hw).2.1.sensors = ec.sensors) := by
  have hbr := asus_ec_block_read_restore ec.registers ec.banks
    ec.read_buffer hw hs h0
  refine ⟨?_, ?_, fun h => update_ec_sensors_sensors_of_error ec hw h⟩
  · simp only [update_ec_sensors, hm, if_true]
    exact hbr.2
  · simp only [update_ec_sensors, hm, if_true]
    exact hbr.1

/-- Witness for C5: a fully successful Pro WS X570-ACE pass from bank 0. -/
theorem restore_prev_bank_witness :
    (∃ mid, (update_ec_sensors stPW hwAllOk).2.2.wtrace
      = hwAllOk.wtrace ++ mid ++ [hwAllOk.bank])
    ∧ (update_ec_sensors stPW hwAllOk).1
      = hwAllOk.o.writeOk ((update_ec_sensors stPW hwAllOk).2.2.wcount - 1)
    ∧ ((update_ec_sensors stPW hwAllOk).1 = false →
        (update_ec_sensors stPW hwAllOk).2.1.sensors = stPW.sensors) :=
  restore_prev_bank stPW hwAllOk rfl rfl (Or.inl rfl)

/-- C7. When the TTL has expired and the bulk read pass fails, the query
returns the error, last_updated and every cached sensor value are left
unchanged (the cache stays stale), and any later query — at any time not
earlier than this one, with the guard available — attempts a fresh pass
again. -/
theorem failed_refresh_frame (sensor_index : Nat) (ec : EcSensorsData)
    (hw : Hw) (now : Nat)
    (hstale : ec.last_updated + HZ < now)
    (hfail : (update_ec_sensors ec hw).1 = false) :
    (get_cached_value_or_update sensor_index ec hw now).1 = none
    ∧ (get_cached_value_or_update sensor_index ec hw now).2.1.last_updated
      = ec.last_updated
    ∧ (get_cached_value_or_update sensor_index ec hw now).2.1.sensors
      = ec.sensors
    ∧ (∀ (hw2 : Hw) (now2 : Nat), now ≤ now2 → hw2.o.mutexOk = true →
        (get_cached_value_or_update sensor_index
          (get_cached_value_or_update sensor_index ec hw now).2.1
          hw2 now2).2.2.passCount = hw2.passCount + 1) := by
  have hred : get_cached_value_or_update sensor_index ec hw now
      = (none, (update_ec_sensors ec hw).2.1, (update_ec_sensors ec hw).2.2) := by
    simp only [get_cached_value_or_update, if_pos hstale, hfail]
    simp
  rw [hred]
  refine ⟨rfl, update_ec_sensors_last_updated ec hw,
    update_ec_sensors_sensors_of_error ec hw hfail, ?_⟩
  intro hw2 now2 hn hm
  apply get_cached_passCount
  · rw [update_ec_sensors_last_updated ec hw]
    omega
  · exact hm

/-- Witness for C7: stale query against failing hardware at time 2000,
followed by a retried pass at time 3000. -/
theorem failed_refresh_frame_witness :
    (get_cached_value_or_update 0 stPW hwSelFail 2000).1 = none
    ∧ (get_cached_value_or_update 0 stPW hwSelFail 2000).2.1.last_updated
      = stPW.last_updated
    ∧ (get_cached_value_or_update 0 stPW hwSelFail 2000).2.1.sensors
      = stPW.sensors
    ∧ (get_cached_value_or_update 0
        (get_cached_value_or_update 0 stPW hwSelFail 2000).2.1
        hwAllOk 3000).2.2.passCount = hwAllOk.passCount + 1 := by
  have h := failed_refresh_frame 0 stPW hwSelFail 2000 (by decide) rfl
  exact ⟨h.1, h.2.1, h.2.2.1, h.2.2.2 hwAllOk 3000 (by omega) rfl⟩

/-- The first board-profile table entry (Pro WS X570-ACE). -/
def boardPW : AsusEcBoardInfo := known_boards.getD 0 default

/-- C3. For every board profile in the table, the built plan satisfies:
the register list's length equals nr_registers, which is the sum of the
assigned sensors' sizes; the bank list is strictly sorted ascending (hence
has no duplicates); it is exactly the set of banks occurring in
the register list; and it has at most ASUS_EC_MAX_BANK = 4 entries. -/
theorem register_plan_invariants :
    ∀ bi ∈ known_boards,
      (make_ec_state bi.sensors).registers.length
        = setup_nr_registers bi.sensors
      ∧ (make_ec_state bi.sensors).registers.length
        = ((make_ec_state bi.sensors).sensors.map
            (fun s => (known_ec_sensors.getD s.info_index default).addr.size)).sum
      ∧ List.Sorted (· < ·) (make_ec_state bi.sensors).banks
      ∧ (make_ec_state bi.sensors).banks.Nodup
      ∧ (∀ b ∈ (make_ec_state bi.sensors).banks,
          b ∈ (make_ec_state bi.sensors).registers.map register_bank)
      ∧ (∀ r ∈ (make_ec_state bi.sensors).registers,
          register_bank r ∈ (make_ec_state bi.sensors).banks)
      ∧ (make_ec_state bi.sensors).banks.length ≤ ASUS_EC_MAX_BANK := by
  decide

/-- Witness for C3 at the first board profile. -/
theorem register_plan_invariants_witness :
    (make_ec_state boardPW.sensors).registers.length
      = setup_nr_registers boardPW.sensors
    ∧ (make_ec_state boardPW.sensors).registers.length
      = ((make_ec_state boardPW.sensors).sensors.map
          (fun s => (known_ec_sensors.getD s.info_index default).addr.size)).sum
    ∧ List.Sorted (· < ·) (make_ec_state boardPW.sensors).banks
    ∧ (make_ec_state boardPW.sensors).banks.Nodup
    ∧ (∀ b ∈ (make_ec_state boardPW.sensors).banks,
        b ∈ (make_ec_state boardPW.sensors).registers.map register_bank)
    ∧ (∀ r ∈ (make_ec_state boardPW.sensors).registers,
        register_bank r ∈ (make_ec_state boardPW.sensors).banks)
    ∧ (make_ec_state boardPW.sensors).banks.length ≤ ASUS_EC_MAX_BANK :=
  register_plan_invariants boardPW (by decide)

/-! ## Decoding lemmas -/

/-- The cumulative byte position of the i-th assigned sensor: the sum of
the sizes of the sensors before it (the data pointer advance performed by
update_sensor_values). -/
def sizesBeforeSensor (sensors : List EcSensor) (i : Nat) : Nat :=
  ((sensors.take i).map
    (fun s => (known_ec_sensors.getD s.info_index default).addr.size)).sum

lemma update_sensor_values_getD (sensors : List EcSensor) (data : List Nat)
    (i : Nat) (h : i < sensors.length) :
    (update_sensor_values sensors data).getD i default
      = { sensors.getD i default with
          cached_value := get_sensor_value
            (known_ec_sensors.getD ((sensors.getD i default).info_index)
              default)
            (data.drop (sizesBeforeSensor sensors i)) } := by
  induction sensors generalizing i data with
  | nil => simp at h
  | cons s rest ih =>
    cases i with
    | zero =>
      simp [update_sensor_values, sizesBeforeSensor]
    | succ n =>
      have hn : n < rest.length := by simpa using h
      have hih := ih (data.drop
        (known_ec_sensors.getD s.info_index default).addr.size) n hn
      simp only [update_sensor_values, List.getD_cons_succ, hih,
        sizesBeforeSensor, List.take_succ_cons, List.map_cons, List.sum_cons,
        List.drop_drop]

lemma known_sizes : ∀ si ∈ known_ec_sensors,
    si.addr.size = 1 ∨ si.addr.size = 2 := by
  decide

lemma getD_byte_lt (data : List Nat) (hb : ∀ b ∈ data, b < 256) (n : Nat) :
    data.getD n 0 < 256 := by
  induction data generalizing n with
  | nil => simp [List.getD]
  | cons a l ih =>
    cases n with
    | zero => simpa using hb a (List.mem_cons_self a l)
    | succ m =>
      simp only [List.getD_cons_succ]
      exact ih (fun b hbm => hb b (List.mem_cons_of_mem a hbm)) m

lemma get_sensor_value_lt (si : EcSensorInfo)
    (hsize : si.addr.size = 1 ∨ si.addr.size = 2)
    (data : List Nat) (hb : ∀ b ∈ data, b < 256) :
    get_sensor_value si data < 65536 := by
  rcases hsize with h | h
  · simp only [get_sensor_value, h]
    exact lt_trans (getD_byte_lt data hb 0) (by norm_num)
  · simp only [get_sensor_value, h]
    have h0 := getD_byte_lt data hb 0
    have h1 := getD_byte_lt data hb 1
    omega

/-- C4. Decoding consumes exactly `size` bytes at the sensor's cumulative
position: the value stored for the i-th assigned sensor is the decode of
the buffer suffix starting at the sum of the previous sensors' sizes,
where size 1 yields the byte itself, size 2 the big-endian 16-bit value,
size 4 the big-endian 32-bit value and any other size 0; and the value
handed to the consumer is the decoded integer times 1000 for temperature,
current and voltage sensors and the decoded integer unchanged for fans. -/
theorem decode_scale_correct (sensors : List EcSensor) (data : List Nat)
    (i : Nat) (si : EcSensorInfo) (rest : List Nat)
    (hi : i < sensors.length)
    (hbytes : ∀ b ∈ data, b < 256)
    (hcat : (sensors.getD i default).info_index < known_ec_sensors.length)
    (hsi : si = known_ec_sensors.getD ((sensors.getD i default).info_index)
      default)
    (hrest : rest = data.drop (sizesBeforeSensor sensors i)) :
    ((update_sensor_values sensors data).getD i default).cached_value
      = get_sensor_value si rest
    ∧ (si.addr.size = 1 → get_sensor_value si rest = rest.getD 0 0)
    ∧ (si.addr.size = 2 →
        get_sensor_value si rest = 256 * rest.getD 0 0 + rest.getD 1 0)
    ∧ (si.addr.size = 4 →
        get_sensor_value si rest
          = 256 * (256 * (256 * rest.getD 0 0 + rest.getD 1 0) +
              rest.getD 2 0) + rest.getD 3 0)
    ∧ (si.addr.size ≠ 1 → si.addr.size ≠ 2 → si.addr.size ≠ 4 →
        get_sensor_value si rest = 0)
    ∧ ((si.type = HwmonType.hwmon_temp ∨ si.type = HwmonType.hwmon_curr ∨
          si.type = HwmonType.hwmon_in) →
        scale_sensor_value (get_sensor_value si rest) si.type
          = 1000 * get_sensor_value si rest)
    ∧ (si.type = HwmonType.hwmon_fan →
        scale_sensor_value (get_sensor_value si rest) si.type
          = get_sensor_value si rest) := by
  have hmem : si ∈ known_ec_sensors := by
    rw [hsi, List.getD_eq_getElem _ _ hcat]
    exact List.getElem_mem hcat
  have hbrest : ∀ b ∈ rest, b < 256 := by
    intro b hb
    exact hbytes b (List.drop_subset _ _ (hrest ▸ hb))
  have hv : get_sensor_value si rest < 65536 :=
    get_sensor_value_lt si (known_sizes si hmem) rest hbrest
  refine ⟨?_, ?_, ?_, ?_, ?_, ?_, ?_⟩
  · rw [update_sensor_values_getD sensors data i hi, hsi, hrest]
  · intro h
    simp [get_sensor_value, h]
  · intro h
    simp [get_sensor_value, h]
  · intro h
    simp [get_sensor_value, h]
  · intro h1 h2 h3
    simp only [get_sensor_value]
  · intro ht
    have hlt : get_sensor_value si rest * 1000 < 2 ^ 32 := by
      show get_sensor_value si rest * 1000 < 4294967296
      omega
    rcases ht with h | h | h <;>
      (rw [h]; show (get_sensor_value si rest * 1000) % 2 ^ 32
          = 1000 * get_sensor_value si rest;
        rw [Nat.mod_eq_of_lt hlt, Nat.mul_comm])
  · intro h
    rw [h]
    rfl

/-- Witness for C4: the Pro WS X570-ACE sensor 0 (chipset temperature,
size 1) decoded from a concrete 7-byte buffer. -/
theorem decode_scale_correct_witness :
    ((update_sensor_values stPW.sensors
        [45, 50, 40, 60, 3, 232, 10]).getD 0 default).cached_value
      = get_sensor_value
          (known_ec_sensors.getD ((stPW.sensors.getD 0 default).info_index)
            default)
          ([45, 50, 40, 60, 3, 232, 10].drop (sizesBeforeSensor stPW.sensors 0))
    ∧ scale_sensor_value
        (get_sensor_value
          (known_ec_sensors.getD ((stPW.sensors.getD 0 default).info_index)
            default)
          ([45, 50, 40, 60, 3, 232, 10].drop
            (sizesBeforeSensor stPW.sensors 0)))
        (known_ec_sensors.getD ((stPW.sensors.getD 0 default).info_index)
          default).type
      = 1000 * get_sensor_value
          (known_ec_sensors.getD ((stPW.sensors.getD 0 default).info_index)
            default)
          ([45, 50, 40, 60, 3, 232, 10].drop
            (sizesBeforeSensor stPW.sensors 0)) := by
  have h := decode_scale_correct stPW.sensors [45, 50, 40, 60, 3, 232, 10] 0
    (known_ec_sensors.getD ((stPW.sensors.getD 0 default).info_index) default)
    ([45, 50, 40, 60, 3, 232, 10].drop (sizesBeforeSensor stPW.sensors 0))
    (by decide) (by decide) (by decide) rfl rfl
  exact ⟨h.1, h.2.2.2.2.2.1 (Or.inl (by decide))⟩

/-- A Pro WS X570-ACE state freshly refreshed at time 100 from the buffer
[45, 50, 40, 60, 3, 232, 10] (chipset temperature raw value 45). -/
def stPWfresh : EcSensorsData :=
  { stPW with
      sensors := update_sensor_values stPW.sensors [45, 50, 40, 60, 3, 232, 10]
      last_updated := 100 }

/-- C8 counterexample: after the refresh the stored cached_value is the
raw decoded 45, not the scaled 45000; the Fresh-path query returns 45000,
i.e. it scales the cached value on the way out — refuting the claim that
the cache stores already-scaled values which the Fresh path returns
without further scaling. -/
theorem cache_scaled_cex :
    (stPWfresh.sensors.getD 0 default).cached_value = 45
    ∧ (asus_ec_hwmon_read HwmonType.hwmon_temp 0 stPWfresh hwAllOk 150).1
      = Except.ok 45000
    ∧ (45 : Nat) ≠ 45000 :=
  ⟨rfl, rfl, by decide⟩

/-- C8 (amended). After every successful refresh each sensor's
cached_value is the raw decoded value (scaling is not applied at decode
time), and the Fresh-path query returns the cached value scaled by
scale_sensor_value at query time. -/
theorem cache_stores_raw :
    (∀ (sensors : List EcSensor) (data : List Nat) (i : Nat),
      i < sensors.length →
      ((update_sensor_values sensors data).getD i default).cached_value
        = get_sensor_value
            (known_ec_sensors.getD ((sensors.getD i default).info_index)
              default)
            (data.drop (sizesBeforeSensor sensors i)))
    ∧ (∀ (t : HwmonType) (ch : Nat) (ec : EcSensorsData) (hw : Hw)
        (now k : Nat),
        now ≤ ec.last_updated + HZ →
        find_ec_sensor_index ec.sensors t ch = Int.ofNat k →
        (asus_ec_hwmon_read t ch ec hw now).1
          = Except.ok (scale_sensor_value
              ((ec.sensors.getD k default).cached_value)
              (get_sensor_info ec k).type)) := by
  constructor
  · intro sensors data i hi
    rw [update_sensor_values_getD sensors data i hi]
  · intro t ch ec hw now k hfresh hfind
    have hnneg : ¬((Int.ofNat k : Int) < 0) :=
      Int.not_lt.mpr (Int.ofNat_nonneg k)
    have htn : (Int.ofNat k).toNat = k := rfl
    simp only [asus_ec_hwmon_read, hfind, if_neg hnneg, htn,
      get_cached_fresh k ec hw now hfresh]

/-- Witness for C8: the concrete refreshed Pro WS X570-ACE state. -/
theorem cache_stores_raw_witness :
    ((update_sensor_values stPW.sensors
        [45, 50, 40, 60, 3, 232, 10]).getD 0 default).cached_value
      = get_sensor_value
          (known_ec_sensors.getD ((stPW.sensors.getD 0 default).info_index)
            default)
          ([45, 50, 40, 60, 3, 232, 10].drop (sizesBeforeSensor stPW.sensors 0))
    ∧ (asus_ec_hwmon_read HwmonType.hwmon_temp 0 stPWfresh hwAllOk 150).1
      = Except.ok (scale_sensor_value
          ((stPWfresh.sensors.getD 0 default).cached_value)
          (get_sensor_info stPWfresh 0).type) :=
  ⟨cache_stores_raw.1 stPW.sensors [45, 50, 40, 60, 3, 232, 10] 0 (by decide),
   cache_stores_raw.2 HwmonType.hwmon_temp 0 stPWfresh hwAllOk 150 0
     (by decide) (by decide)⟩

/-! ## Lookup lemmas -/

lemma find_from_eq (sensors : List EcSensor) (t : HwmonType) (ch i : Nat) :
    find_from sensors t ch i
      = match (occIndices sensors t)[ch]? with
        | some k => Int.ofNat (i + k)
        | none => -2 := by
  induction sensors generalizing ch i with
  | nil => simp [find_from, occIndices]
  | cons s rest ih =>
    simp only [find_from, occIndices]
    split
    · cases ch with
      | zero =>
        rw [if_pos rfl]
        simp [List.getElem?_cons_zero]
      | succ n =>
        rw [if_neg (Nat.succ_ne_zero n), ih]
        simp only [Nat.add_sub_cancel, List.getElem?_cons_succ,
          List.getElem?_map]
        cases h : (occIndices rest t)[n]? with
        | none => rfl
        | some k =>
          simp only [Option.map_some']
          exact congrArg Int.ofNat (by show i + 1 + k = i + (k + 1); omega)
    · rw [ih]
      simp only [List.getElem?_map]
      cases h : (occIndices rest t)[ch]? with
      | none => rfl
      | some k =>
        simp only [Option.map_some']
        exact congrArg Int.ofNat (by show i + 1 + k = i + (k + 1); omega)

lemma occIndices_lt (sensors : List EcSensor) (t : HwmonType) :
    ∀ k ∈ occIndices sensors t, k < sensors.length := by
  induction sensors with
  | nil => simp [occIndices]
  | cons s rest ih =>
    intro k hk
    simp only [occIndices] at hk
    split at hk
    · rcases List.mem_cons.mp hk with h0 | h1
      · subst h0
        simp
      · obtain ⟨a, ha, hae⟩ := List.mem_map.mp h1
        rw [← hae]
        show a + 1 < rest.length + 1
        exact Nat.succ_lt_succ (ih a ha)
    · obtain ⟨a, ha, hae⟩ := List.mem_map.mp hk
      rw [← hae]
      show a + 1 < rest.length + 1
      exact Nat.succ_lt_succ (ih a ha)

lemma occIndices_type (sensors : List EcSensor) (t : HwmonType) :
    ∀ (j k : Nat), (occIndices sensors t)[j]? = some k →
      (known_ec_sensors.getD ((sensors.getD k default).info_index)
        default).type = t := by
  induction sensors with
  | nil =>
    intro j k h
    simp [occIndices] at h
  | cons s rest ih =>
    intro j k h
    simp only [occIndices] at h
    split at h
    · cases j with
      | zero =>
        simp only [List.getElem?_cons_zero, Option.some_inj] at h
        subst h
        simpa using ‹(known_ec_sensors.getD s.info_index default).type = t›
      | succ n =>
        simp only [List.getElem?_cons_succ, List.getElem?_map] at h
        cases h1 : (occIndices rest t)[n]? with
        | none => rw [h1] at h; simp at h
        | some k1 =>
          rw [h1] at h
          simp only [Option.map_some', Option.some_inj] at h
          rw [← h]
          show (known_ec_sensors.getD
            ((rest.getD k1 default).info_index) default).type = t
          exact ih n k1 h1
    · simp only [List.getElem?_map] at h
      cases h1 : (occIndices rest t)[j]? with
      | none => rw [h1] at h; simp at h
      | some k1 =>
        rw [h1] at h
        simp only [Option.map_some', Option.some_inj] at h
        rw [← h]
        show (known_ec_sensors.getD
          ((rest.getD k1 default).info_index) default).type = t
        exact ih j k1 h1

/-- C9. Lookup by (kind, channel) resolves deterministically to the
(channel+1)-th sensor of that kind in assignment order: when the list of
positions of that kind (occIndices) has a ch-th entry k, the lookup
returns exactly k, k is in bounds, and the k-th assigned sensor indeed
has the requested kind; when the channel is beyond the number of sensors
of that kind, the lookup returns -ENOENT (-2) and the value query fails
with that error, leaving the driver state and hardware untouched —
no default value is produced. -/
theorem sensor_lookup_resolution (sensors : List EcSensor) (t : HwmonType)
    (ch : Nat) :
    (∀ k, (occIndices sensors t)[ch]? = some k →
      find_ec_sensor_index sensors t ch = Int.ofNat k
      ∧ k < sensors.length
      ∧ (known_ec_sensors.getD ((sensors.getD k default).info_index)
          default).type = t)
    ∧ ((occIndices sensors t)[ch]? = none →
      find_ec_sensor_index sensors t ch = -2
      ∧ ∀ (ec : EcSensorsData) (hw : Hw) (now : Nat), ec.sensors = sensors →
          (asus_ec_hwmon_read t ch ec hw now).1 = Except.error (-2)
          ∧ (asus_ec_hwmon_read t ch ec hw now).2.1 = ec
          ∧ (asus_ec_hwmon_read t ch ec hw now).2.2 = hw) := by
  constructor
  · intro k hk
    refine ⟨?_, ?_, occIndices_type sensors t ch k hk⟩
    · unfold find_ec_sensor_index
      rw [find_from_eq, hk]
      simp
    · have hmem : k ∈ occIndices sensors t := List.getElem?_mem hk
      exact occIndices_lt sensors t k hmem
  · intro hnone
    have hfind : find_ec_sensor_index sensors t ch = -2 := by
      unfold find_ec_sensor_index
      rw [find_from_eq, hnone]
    refine ⟨hfind, ?_⟩
    intro ec hw now hsens
    have hf2 : find_ec_sensor_index ec.sensors t ch = -2 := by
      rw [hsens, hfind]
    have hneg : find_ec_sensor_index ec.sensors t ch < 0 := by
      rw [hf2]
      decide
    simp only [asus_ec_hwmon_read, if_pos hneg, hf2]
    exact ⟨rfl, rfl, rfl⟩

/-- Witness for C9 on the Pro WS X570-ACE: temperature channel 1 resolves
to sensor 1; temperature channel 9 (only 4 temperature sensors exist)
fails with -ENOENT and the query errors without touching the state. -/
theorem sensor_lookup_resolution_witness :
    find_ec_sensor_index stPW.sensors HwmonType.hwmon_temp 1 = Int.ofNat 1
    ∧ find_ec_sensor_index stPW.sensors HwmonType.hwmon_temp 9 = -2
    ∧ (asus_ec_hwmon_read HwmonType.hwmon_temp 9 stPW hwAllOk 0).1
      = Except.error (-2) := by
  have h1 := (sensor_lookup_resolution stPW.sensors HwmonType.hwmon_temp 1).1
    1 (by decide)
  have h2 := (sensor_lookup_resolution stPW.sensors HwmonType.hwmon_temp 9).2
    (by decide)
  exact ⟨h1.1, h2.1, (h2.2 stPW hwAllOk 0 rfl).1⟩

/-- C10 counterexample: on the Pro WS X570-ACE, the label query for
temperature channel 4 (the board has only 4 temperature sensors,
channels 0..3) feeds the failed lookup result -ENOENT (-2) straight into
get_sensor_info as the sensors-table index — an out-of-bounds (negative)
index, refuting the claim that the label path accesses the table only at
in-bounds indices for every (kind, channel) pair. -/
theorem read_string_index_cex :
    asus_ec_hwmon_read_string_index stPW HwmonType.hwmon_temp 4 < 0 := by
  decide

/-- C10 (amended). For every (kind, channel) pair that is visible — i.e.
for which the lookup succeeds, which is the only way the hwmon core
invokes the label callback — the index used by asus_ec_hwmon_read_string
is in bounds for the sensors table; for absent pairs the failed lookup
result is used directly as the index, which is negative. -/
theorem read_string_index_bounds (ec : EcSensorsData) (t : HwmonType)
    (ch : Nat) (hvis : asus_ec_hwmon_is_visible ec t ch = true) :
    0 ≤ asus_ec_hwmon_read_string_index ec t ch
    ∧ (asus_ec_hwmon_read_string_index ec t ch).toNat
      < ec.sensors.length := by
  have h0 : 0 ≤ find_ec_sensor_index ec.sensors t ch :=
    of_decide_eq_true hvis
  cases hk : (occIndices ec.sensors t)[ch]? with
  | none =>
    have hfind := ((sensor_lookup_resolution ec.sensors t ch).2 hk).1
    rw [hfind] at h0
    exact absurd h0 (by decide)
  | some k =>
    have hh := (sensor_lookup_resolution ec.sensors t ch).1 k hk
    constructor
    · exact h0
    · show (find_ec_sensor_index ec.sensors t ch).toNat < ec.sensors.length
      rw [hh.1]
      simpa using hh.2.1

/-- Witness for C10 at a visible channel. -/
theorem read_string_index_bounds_witness :
    0 ≤ asus_ec_hwmon_read_string_index stPW HwmonType.hwmon_temp 0
    ∧ (asus_ec_hwmon_read_string_index stPW HwmonType.hwmon_temp 0).toNat
      < stPW.sensors.length :=
  read_string_index_bounds stPW HwmonType.hwmon_temp 0 (by decide)

/-! ## Read-trace lemmas for the bulk read pass -/

lemma block_read_regs_rtrace (regs : List Nat) (bank ireg : Nat)
    (buf : List Nat) (hw : Hw) (hbank : hw.bank = bank) :
    (block_read_regs regs bank ireg buf hw).2.rtrace
      = hw.rtrace ++ (regs.filter
          (fun r => decide (bank ≤ register_bank r))).map
            (fun r => (bank, r &&& 0x00ff)) := by
  induction regs generalizing ireg buf hw with
  | nil => simp [block_read_regs]
  | cons r rest ih =>
    simp only [block_read_regs]
    by_cases hlt : register_bank r < bank
    · rw [if_pos hlt, ih _ _ _ hbank, List.filter_cons,
        decide_eq_false (Nat.not_le.mpr hlt)]
      simp
    · rw [if_neg hlt, ih _ _ _ (show (ecReadReg (r &&& 0x00ff) hw).2.bank
          = bank from hbank),
        (ecReadReg_snd (r &&& 0x00ff) hw).2.2.2.2.2.2, List.filter_cons,
        decide_eq_true (Nat.le_of_not_lt hlt)]
      simp [hbank]

lemma asus_ec_bank_switch_save_ok (bank : Nat) (hw : Hw)
    (hs : hw.o.selReadOk = true)
    (h0 : hw.bank = bank ∨ hw.o.writeOk hw.wcount = true) :
    (asus_ec_bank_switch_save bank hw).1 = true
    ∧ (asus_ec_bank_switch_save bank hw).2.2.bank = bank := by
  unfold asus_ec_bank_switch_save
  rw [if_pos hs]
  by_cases hob : hw.bank = bank
  · rw [if_pos hob]
    exact ⟨rfl, hob⟩
  · rw [if_neg hob]
    have hwr : hw.o.writeOk hw.wcount = true := h0.resolve_left hob
    refine ⟨hwr, ?_⟩
    show (if hw.o.writeOk hw.wcount = true then bank else hw.bank) = bank
    rw [if_pos hwr]

lemma block_read_banks_rtrace (regs banks : List Nat) (cur : Nat)
    (buf : List Nat) (hw : Hw) (hbank : hw.bank = cur)
    (hW : ∀ n, hw.o.writeOk n = true) :
    (block_read_banks regs banks cur buf hw).2.rtrace
      = hw.rtrace ++ banks.flatMap (fun b =>
          (regs.filter (fun r => decide (b ≤ register_bank r))).map
            (fun r => (b, r &&& 0x00ff))) := by
  induction banks generalizing cur buf hw with
  | nil => simp [block_read_banks]
  | cons b rest ih =>
    simp only [block_read_banks]
    by_cases hcb : cur ≠ b
    · rw [if_pos hcb]
      have hsw : (asus_ec_bank_switch b hw).1 = true := hW hw.wcount
      rw [if_pos hsw]
      have hb2 : (asus_ec_bank_switch b hw).2.bank = b := by
        show (if hw.o.writeOk hw.wcount = true then b else hw.bank) = b
        rw [if_pos (hW hw.wcount)]
      rw [ih b _ _ ((block_read_regs_frame regs b 0 buf _).2.1.trans hb2)
          (fun n => by
            rw [(block_read_regs_frame regs b 0 buf _).1]
            exact hW n),
        block_read_regs_rtrace regs b 0 buf _ hb2]
      show ((hw.rtrace ++ _) ++ _) = _
      simp [List.flatMap_cons, List.append_assoc]
    · rw [if_neg hcb]
      have hb : hw.bank = b := by
        rw [hbank]
        exact Decidable.not_not.mp hcb
      rw [ih b _ _ ((block_read_regs_frame regs b 0 buf hw).2.1.trans hb)
          (fun n => by
            rw [(block_read_regs_frame regs b 0 buf hw).1]
            exact hW n),
        block_read_regs_rtrace regs b 0 buf hw hb]
      simp [List.flatMap_cons, List.append_assoc]

/-- C6 (amended). During one complete bulk read pass (selector read and
all selector writes succeed), the sequence of data-register reads issued
to the hardware is exactly: for each plan bank b in order, every plan
register whose bank is ≥ b, read at its low-byte offset while b is
selected, in plan order. Hence a register is read once per plan bank not
exceeding its own bank: each register is read at least once (at its own
bank), registers are read exactly once each only for single-bank plans,
and with several banks the higher-bank registers are re-read on every
earlier bank iteration (the claim's "exactly once" fails, see
block_read_double_read_cex). -/
theorem block_read_reads_each_admitted (regs banks buf : List Nat)
    (hw : Hw) (hs : hw.o.selReadOk = true)
    (hW : ∀ n, hw.o.writeOk n = true) :
    (asus_ec_block_read regs banks buf hw).2.2.rtrace
      = hw.rtrace ++ banks.flatMap (fun b =>
          (regs.filter (fun r => decide (b ≤ register_bank r))).map
            (fun r => (b, r &&& 0x00ff)))
    ∧ (asus_ec_block_read regs banks buf hw).1 = true := by
  simp only [asus_ec_block_read, asus_ec_bank_switch]
  have hsave := asus_ec_bank_switch_save_ok 0
    { hw with passCount := hw.passCount + 1 } hs (Or.inr (hW hw.wcount))
  rw [if_pos hsave.1]
  constructor
  · rw [(ecWriteSel_snd _ _).2.2.2.1,
      block_read_banks_rtrace regs banks 0 buf _ hsave.2
        (fun n => by
          rw [(asus_ec_bank_switch_save_snd 0 _).1]
          exact hW n),
      (asus_ec_bank_switch_save_snd 0 _).2.2.2]
  · rw [ecWriteSel_fst, (block_read_banks_frame regs banks 0 buf _).1,
      (asus_ec_bank_switch_save_snd 0 _).1]
    exact hW _

/-- Witness for C6 on the single-bank Pro WS X570-ACE plan. -/
theorem block_read_reads_each_admitted_witness :
    (asus_ec_block_read stPW.registers stPW.banks stPW.read_buffer
        hwAllOk).2.2.rtrace
      = hwAllOk.rtrace ++ stPW.banks.flatMap (fun b =>
          (stPW.registers.filter (fun r => decide (b ≤ register_bank r))).map
            (fun r => (b, r &&& 0x00ff)))
    ∧ (asus_ec_block_read stPW.registers stPW.banks stPW.read_buffer
        hwAllOk).1 = true :=
  block_read_reads_each_admitted stPW.registers stPW.banks stPW.read_buffer
    hwAllOk rfl (fun _ => rfl)

/-- C6 counterexample: a complete pass over the C8H two-bank plan
(14 registers, banks [0, 1]) issues 16 data-register reads, not 14 — and
the trace shows the two bank-1 registers (absolute addresses 0x0100 and
0x0101, low-byte offsets 0 and 1) being read twice: once while bank 0 is
selected (entries (0, 0) and (0, 1)) and again while bank 1 is selected.
Since every data-register read targets a plan register's buffer slot,
16 reads over 14 registers refute "each register is read exactly once". -/
theorem block_read_double_read_cex :
    (asus_ec_block_read stC8H.registers stC8H.banks stC8H.read_buffer
        hwAllOk).2.2.rcount = 16
    ∧ stC8H.registers.length = 14
    ∧ (asus_ec_block_read stC8H.registers stC8H.banks stC8H.read_buffer
        hwAllOk).2.2.rtrace
      = [(0, 58), (0, 59), (0, 60), (0, 61), (0, 62), (0, 176), (0, 177),
         (0, 180), (0, 181), (0, 188), (0, 189), (0, 244), (0, 0), (0, 1),
         (1, 0), (1, 1)] :=
  ⟨rfl, rfl, rfl⟩
